import Mathlib

/-!
Verification of `bin/poll_git.py`

A shallow embedding of the single script of this repository, which queries a
repository-search HTTP API for a keyword, paginates through the results,
trims each result record to a fixed key set, and prints a JSON report.

JSON values are modelled by the inductive `JVal`; Python dictionaries are
association lists `List (String × JVal)` (Python dict keys are unique and
ordered; lookup returns the first binding).  The HTTP upstream is a function
from the request parameters (keyword, per_page, page) to the decoded JSON
object of the response, so that runs against arbitrary mocked responses can
be analysed.  Uncaught Python exceptions (KeyError and friends) are
modelled with `Except`.
-/

/-- A JSON value, as produced by decoding an HTTP response body. -/
inductive JVal where
  | null
  | bool (b : Bool)
  | num (n : Int)
  | str (s : String)
  | arr (xs : List JVal)
  | obj (fields : List (String × JVal))

/-- A decoded JSON object / Python dictionary: an ordered association list. -/
abbrev Dict := List (String × JVal)

/-- The uncaught Python exceptions the script can raise. -/
inductive PyErr where
  | keyError (k : String)
  | typeError
deriving DecidableEq

/-- The key set `DATA_KEYS` of `poll_git.py`: the keys kept in each repository record. -/
def DATA_KEYS : List String :=
  ["id", "name", "description", "language", "created_at", "html_url",
   "watchers_count", "forks_count", "owner"]

/-- The key set `OWNER_KEYS` of `poll_git.py`: the keys kept in each owner sub-record. -/
def OWNER_KEYS : List String := ["login", "id", "url"]

/-- The function `_filter_dict(src_dict, key_set)`: removes every key of `src_dict` that is
not in `key_set`.  The Python function mutates the dict in place by popping
the keys in `set(src_dict.keys()) - key_set`; the net effect on the mapping is
keeping exactly the bindings whose key is in the key set, in their original
order. -/
def filter_dict (src_dict : Dict) (key_set : List String) : Dict :=
  src_dict.filter (fun p => key_set.contains p.1)

/-- In-place update of the value bound to `key` (the effect of
`r_json['items'].extend(...)` on the enclosing dict: the binding keeps its
position, only its value changes; a dict without the key is unchanged). -/
def setKey : Dict → String → JVal → Dict
  | [], _, _ => []
  | (k, v) :: rest, key, val =>
    if k = key then (k, val) :: rest else (k, v) :: setKey rest key val

/-- A mocked upstream: maps the request parameters `(keyword, per_page, page)`
of the GET URL built from `BASE_URL + QUALIFIERS` to the decoded JSON object
of the response. -/
abbrev Mock := String → Nat → Nat → Dict

/-- The function `_retrieve_data(keyw, limit, page)`.  Returns the decoded page-1 response
with its `items` list extended by the items of the recursively fetched later
pages, together with the list of `(per_page, page)` HTTP requests issued, in
order.  Python evaluation order is kept: the request for this page is issued
first, then `r_json['items']` is looked up (a missing key raises `KeyError`
before any further request), then the recursive call runs, and finally
`.get('items', [])` of the recursive result is appended.

The source guards the recursion with `if limit > 100`; here that test is a
match on the pattern `l + 101` (so that the recursion is structural and the
function evaluates in the kernel), with `l + 1 = limit - 100` the decremented
remaining count.  The lemma `retrieveData_eq` below restores the source's
`if limit > 100` shape. -/
def retrieveData (mock : Mock) (keyw : String) :
    Nat → Nat → Except PyErr Dict × List (Nat × Nat)
  | l + 101, page =>
    let limit := l + 101
    let per_page := if limit < 100 then limit else 100
    let r := mock keyw per_page page
    match r.lookup "items" with
    | some (JVal.arr xs) =>
      let child := retrieveData mock keyw (l + 1) (page + 1)
      let reqs := (per_page, page) :: child.2
      match child.1 with
      | .error e => (.error e, reqs)
      | .ok d =>
        match d.lookup "items" with
        | some (JVal.arr ys) => (.ok (setKey r "items" (JVal.arr (xs ++ ys))), reqs)
        | none => (.ok (setKey r "items" (JVal.arr (xs ++ []))), reqs)
        | some _ => (.error PyErr.typeError, reqs)
    | some _ => (.error PyErr.typeError, [(per_page, page)])
    | none => (.error (PyErr.keyError "items"), [(per_page, page)])
  | limit, page =>
    let per_page := if limit < 100 then limit else 100
    (.ok (mock keyw per_page page), [(per_page, page)])

/-- The filtering pass of `main` on one repository record:
`_filter_dict(item, DATA_KEYS)` followed by
`_filter_dict(item['owner'], OWNER_KEYS)`.  A record that is not an object,
lacks `owner` after filtering, or whose `owner` is not an object, raises. -/
def processItem : JVal → Except PyErr Dict
  | JVal.obj fields =>
    let f := filter_dict fields DATA_KEYS
    match f.lookup "owner" with
    | some (JVal.obj ofields) =>
      .ok (setKey f "owner" (JVal.obj (filter_dict ofields OWNER_KEYS)))
    | some _ => .error PyErr.typeError
    | none => .error (PyErr.keyError "owner")
  | _ => .error PyErr.typeError

/-- The `for item in data['items']` loop of `main`: each record is filtered in
place; the first raising record aborts the run. -/
def processItems : List JVal → Except PyErr (List Dict)
  | [] => .ok []
  | x :: xs =>
    match processItem x with
    | .error e => .error e
    | .ok d =>
      match processItems xs with
      | .error e => .error e
      | .ok ds => .ok (d :: ds)

/-- The observable outcome of one run of the script. -/
inductive MainOutcome where
  | exitError (code : Nat) (msg : String)
  | crash (e : PyErr)
  | success (doc : Dict) (indent : Nat)

/-- The function `main()` with the parsed arguments `keyword` and `limit`, run against a
mocked upstream.  Returns the outcome together with the list of HTTP requests
issued.  A successful run prints exactly one JSON document,
`json.dumps(json_dict, indent=4)`; the document and the indent argument are
recorded in the `success` outcome. -/
def mainRun (mock : Mock) (keyword : String) (limit : Int) :
    MainOutcome × List (Nat × Nat) :=
  if limit < 1 ∨ 1000 < limit then
    (.exitError 1 (s!"ERROR: limit [{limit}] is not in the range 1-1000"), [])
  else
    let res := retrieveData mock keyword limit.toNat 1
    match res.1 with
    | .error e => (.crash e, res.2)
    | .ok data =>
      match data.lookup "items" with
      | some (JVal.arr items) =>
        match processItems items with
        | .error e => (.crash e, res.2)
        | .ok fitems =>
          match data.lookup "total_count" with
          | some tc =>
            (.success
              [("keyword", JVal.str keyword),
               ("repository_limit", JVal.num limit),
               ("total_repositories", tc),
               ("repo_list", JVal.arr (fitems.map JVal.obj))] 4,
             res.2)
          | none => (.crash (PyErr.keyError "total_count"), res.2)
      | some _ => (.crash PyErr.typeError, res.2)
      | none => (.crash (PyErr.keyError "items"), res.2)

/-- Modelled from the spec: the external search API (spec §6), of which the
repository holds no code, paginated faithfully.  Given the full sorted result
list, the response to a `(per_page, page)` request reports the total number of
results and serves the `page`-th slice of size `per_page` (pages are
1-based). -/
def githubMock (repos : List Dict) : Mock := fun _keyw perPage page =>
  [("total_count", JVal.num repos.length),
   ("items", JVal.arr (((repos.drop ((page - 1) * perPage)).take perPage).map JVal.obj))]

/-- A mock is well-formed when every response carries an `items` array, as the
real search API always does. -/
def wfMock (mock : Mock) : Prop :=
  ∀ k n p, ∃ xs, (mock k n p).lookup "items" = some (JVal.arr xs)

/-! ## Basic lemmas about the embedded operations -/

/-- Unfolding of `retrieveData` in the shape of the source's `if limit > 100`. -/
theorem retrieveData_eq (mock : Mock) (keyw : String) (limit page : Nat) :
    retrieveData mock keyw limit page =
      let per_page := if limit < 100 then limit else 100
      let r := mock keyw per_page page
      if 100 < limit then
        match r.lookup "items" with
        | some (JVal.arr xs) =>
          let child := retrieveData mock keyw (limit - 100) (page + 1)
          let reqs := (per_page, page) :: child.2
          match child.1 with
          | .error e => (.error e, reqs)
          | .ok d =>
            match d.lookup "items" with
            | some (JVal.arr ys) => (.ok (setKey r "items" (JVal.arr (xs ++ ys))), reqs)
            | none => (.ok (setKey r "items" (JVal.arr (xs ++ []))), reqs)
            | some _ => (.error PyErr.typeError, reqs)
        | some _ => (.error PyErr.typeError, [(per_page, page)])
        | none => (.error (PyErr.keyError "items"), [(per_page, page)])
      else
        (.ok r, [(per_page, page)]) := by
  rcases Nat.lt_or_ge 100 limit with h | h
  · obtain ⟨l, rfl⟩ : ∃ l, limit = l + 101 := ⟨limit - 101, by omega⟩
    have h1 : l + 101 - 100 = l + 1 := by omega
    simp only [retrieveData, h1, if_pos h]
  · have h2 : ∀ l : Nat, l + 101 = limit → False := by omega
    rw [retrieveData.eq_2 mock keyw limit page (fun l hl => h2 l hl.symm)]
    simp only [if_neg (by omega : ¬ 100 < limit)]

/-- Computation of `List.lookup` on a cons cell, stated with a propositional `if`. -/
theorem lookup_cons_ite (k a : String) (v : JVal) (rest : Dict) :
    List.lookup k ((a, v) :: rest) = if k = a then some v else List.lookup k rest := by
  by_cases h : k = a
  · subst h; simp [List.lookup_cons]
  · simp [List.lookup_cons, beq_eq_false_iff_ne.mpr h, h]

/-- Looking a key up in a filtered dict: present with its original value when
the key is in the key set, absent otherwise. -/
theorem lookup_filter_dict (d : Dict) (ks : List String) (k : String) :
    (filter_dict d ks).lookup k =
      if k ∈ ks then d.lookup k else none := by
  induction d with
  | nil => simp [filter_dict]
  | cons p rest ih =>
    obtain ⟨a, v⟩ := p
    simp only [filter_dict, List.filter_cons] at ih ⊢
    by_cases hk : a ∈ ks
    · rw [if_pos (by simpa using hk), lookup_cons_ite, ih, lookup_cons_ite]
      by_cases hak : k = a
      · subst hak; simp [hk]
      · simp [hak]
    · rw [if_neg (by simpa using hk), ih, lookup_cons_ite]
      by_cases hak : k = a
      · subst hak; simp [hk]
      · simp [hak]

/-- Updating a key to the value it already has leaves the dict unchanged. -/
theorem setKey_lookup_self (d : Dict) (k : String) (v : JVal)
    (h : d.lookup k = some v) : setKey d k v = d := by
  induction d with
  | nil => simp [setKey]
  | cons p rest ih =>
    obtain ⟨a, w⟩ := p
    rw [lookup_cons_ite] at h
    by_cases hak : k = a
    · rw [if_pos hak] at h
      injection h with h
      subst h
      simp [setKey, hak.symm]
    · rw [if_neg hak] at h
      rw [setKey, if_neg (fun hc : a = k => hak hc.symm), ih h]

/-- Looking up the updated key after `setKey`, when the key was present. -/
theorem lookup_setKey_same (d : Dict) (k : String) (v w : JVal)
    (h : d.lookup k = some w) : (setKey d k v).lookup k = some v := by
  induction d with
  | nil => simp [List.lookup] at h
  | cons p rest ih =>
    obtain ⟨a, u⟩ := p
    rw [lookup_cons_ite] at h
    by_cases hak : k = a
    · subst hak
      simp [setKey, lookup_cons_ite]
    · rw [if_neg hak] at h
      rw [setKey, if_neg (fun hc : a = k => hak hc.symm), lookup_cons_ite, if_neg hak]
      exact ih h

/-- The update `setKey` leaves every other key untouched. -/
theorem lookup_setKey_ne (d : Dict) (k : String) (v : JVal) (k' : String)
    (h : k' ≠ k) : (setKey d k v).lookup k' = d.lookup k' := by
  induction d with
  | nil => simp [setKey]
  | cons p rest ih =>
    obtain ⟨a, u⟩ := p
    by_cases hak : a = k
    · subst hak
      rw [setKey, if_pos rfl, lookup_cons_ite, lookup_cons_ite, if_neg h, if_neg h]
    · rw [setKey, if_neg hak, lookup_cons_ite, lookup_cons_ite]
      by_cases hk' : k' = a
      · simp [hk']
      · simp [hk', ih]

/-- Against a well-formed mock, `_retrieve_data` succeeds: the result carries
an `items` array, and exactly `⌈limit/100⌉` page requests are issued. -/
theorem retrieveData_ok (mock : Mock) (keyw : String) (hwf : wfMock mock) :
    ∀ limit page, 1 ≤ limit →
      ∃ d xs, (retrieveData mock keyw limit page).1 = .ok d ∧
        d.lookup "items" = some (JVal.arr xs) ∧
        (retrieveData mock keyw limit page).2.length = (limit + 99) / 100 := by
  intro limit
  induction limit using Nat.strong_induction_on with
  | _ limit ih =>
    intro page hl
    rw [retrieveData_eq]
    by_cases h : 100 < limit
    · obtain ⟨xs, hx⟩ := hwf keyw (if limit < 100 then limit else 100) page
      obtain ⟨d, ys, hd, hdy, hlen⟩ :=
        ih (limit - 100) (by omega) (page + 1) (by omega)
      simp only [if_pos h, hx]
      rw [hd]
      simp only [hdy]
      refine ⟨_, xs ++ ys, rfl, ?_, ?_⟩
      · exact lookup_setKey_same _ _ _ _ hx
      · simp only [List.length_cons, hlen]
        omega
    · obtain ⟨xs, hx⟩ := hwf keyw (if limit < 100 then limit else 100) page
      simp only [if_neg h]
      exact ⟨_, xs, rfl, hx, by simp; omega⟩

/-- Whatever the upstream returns, the request list opens with this call's own
`(per_page, page)` request. -/
theorem retrieveData_requests_head (mock : Mock) (keyw : String) (limit page : Nat) :
    ∃ rest, (retrieveData mock keyw limit page).2 =
      ((if limit < 100 then limit else 100), page) :: rest := by
  rw [retrieveData_eq]
  by_cases h : 100 < limit
  · simp only [if_pos h]
    split
    · split
      · exact ⟨_, rfl⟩
      · split
        · exact ⟨_, rfl⟩
        · exact ⟨_, rfl⟩
        · exact ⟨_, rfl⟩
    · exact ⟨_, rfl⟩
    · exact ⟨_, rfl⟩
  · simp only [if_neg h]
    exact ⟨_, rfl⟩

/-- Whatever the upstream returns — even responses with no `items` at all —
the recursion issues at most `⌈limit/100⌉` requests and then stops. -/
theorem retrieveData_requests_le (mock : Mock) (keyw : String) :
    ∀ limit page, 1 ≤ limit →
      (retrieveData mock keyw limit page).2.length ≤ (limit + 99) / 100 := by
  intro limit
  induction limit using Nat.strong_induction_on with
  | _ limit ih =>
    intro page hl
    rw [retrieveData_eq]
    by_cases h : 100 < limit
    · have hc := ih (limit - 100) (by omega) (page + 1) (by omega)
      simp only [if_pos h]
      split
      · split
        · simp only [List.length_cons]
          omega
        · split
          all_goals simp only [List.length_cons]
          all_goals omega
      · simp only [List.length_cons, List.length_nil]
        omega
      · simp only [List.length_cons, List.length_nil]
        omega
    · simp only [if_neg h, List.length_cons, List.length_nil]
      omega

/-! ## Claim theorems -/

/-- A tiny well-formed mock: every response has `total_count` and an empty
`items` array. -/
def mockEmpty : Mock := fun _ _ _ =>
  [("total_count", JVal.num 7), ("items", JVal.arr [])]

/-- Claim C2: for every limit in `[1,1000]` (and any well-formed mocked
upstream), `_retrieve_data` issues exactly `⌈limit/100⌉ = (limit + 99) / 100`
HTTP page requests: one for `limit ≤ 100`, two for `limit ∈ (100,200]`, and
so on. -/
theorem claim_C2 (mock : Mock) (keyw : String) (limit : Nat)
    (hwf : wfMock mock) (h1 : 1 ≤ limit) (h2 : limit ≤ 1000) :
    (retrieveData mock keyw limit 1).2.length = (limit + 99) / 100 := by
  obtain ⟨d, xs, _, _, hlen⟩ := retrieveData_ok mock keyw hwf limit 1 h1
  exact hlen

/-- Witness for C2 at `limit = 250`: three page requests. -/
theorem claim_C2_witness :
    wfMock mockEmpty ∧ 1 ≤ 250 ∧ 250 ≤ 1000 ∧
      (retrieveData mockEmpty "raft" 250 1).2.length = (250 + 99) / 100 :=
  ⟨fun _ _ _ => ⟨[], rfl⟩, by decide, by decide,
    claim_C2 mockEmpty "raft" 250 (fun _ _ _ => ⟨[], rfl⟩) (by decide) (by decide)⟩

/-- Claim C4: a limit outside `[1,1000]` prints the error message and exits with
status 1 before any HTTP request is issued; a limit inside `[1,1000]` never
takes the validation branch. -/
theorem claim_C4 (mock : Mock) (keyword : String) (limit : Int) :
    ((limit < 1 ∨ 1000 < limit) →
        (mainRun mock keyword limit).1 =
          .exitError 1 (s!"ERROR: limit [{limit}] is not in the range 1-1000") ∧
        (mainRun mock keyword limit).2 = []) ∧
    (1 ≤ limit → limit ≤ 1000 →
        ∀ c msg, (mainRun mock keyword limit).1 ≠ .exitError c msg) := by
  constructor
  · intro h
    unfold mainRun
    rw [if_pos h]
    exact ⟨rfl, rfl⟩
  · intro h1 h2 c msg
    unfold mainRun
    rw [if_neg (by omega)]
    dsimp only
    split
    · simp
    · split
      · split
        · simp
        · split
          · simp
          · simp
      · simp
      · simp

/-- Witness for C4: `limit = 0` exits with status 1 and no request;
`limit = 5` does not take the validation branch. -/
theorem claim_C4_witness :
    ((0 : Int) < 1 ∨ 1000 < (0 : Int)) ∧
      ((mainRun mockEmpty "raft" 0).1 =
          .exitError 1 (s!"ERROR: limit [{(0 : Int)}] is not in the range 1-1000") ∧
        (mainRun mockEmpty "raft" 0).2 = []) ∧
      (1 ≤ (5 : Int) ∧ (5 : Int) ≤ 1000) ∧
      (mainRun mockEmpty "raft" 5).1 ≠ .exitError 1 "boom" :=
  ⟨Or.inl (by decide),
    (claim_C4 mockEmpty "raft" 0).1 (Or.inl (by decide)),
    ⟨by decide, by decide⟩,
    (claim_C4 mockEmpty "raft" 5).2 (by decide) (by decide) 1 "boom"⟩

/-- Claim C8: `_filter_dict` is exactly key-set intersection (a key survives iff
it was present and is in the key set) and is idempotent. -/
theorem claim_C8 :
    (∀ (d : Dict) (K : List String) (k : String),
        ((filter_dict d K).lookup k).isSome ↔ ((d.lookup k).isSome ∧ k ∈ K)) ∧
    (∀ (d : Dict) (K : List String),
        filter_dict (filter_dict d K) K = filter_dict d K) := by
  constructor
  · intro d K k
    rw [lookup_filter_dict]
    by_cases h : k ∈ K
    · simp [h]
    · simp [h]
  · intro d K
    simp [filter_dict, List.filter_filter]

/-- A sample upstream repository record, with one extra key at each level. -/
def sampleFields : Dict :=
  [("id", JVal.num 1), ("junk", JVal.null),
   ("owner", JVal.obj [("login", JVal.str "a"), ("extra", JVal.null)])]

/-- The owner sub-record of `sampleFields`. -/
def sampleOwner : Dict := [("login", JVal.str "a"), ("extra", JVal.null)]

/-- Claim C6: `_filter_dict` removes exactly the keys outside the key set,
keeps the original value of every key in the key set, and `main` applies it
once to each record with `DATA_KEYS` and once to the record's owner with
`OWNER_KEYS` (the owner being looked up in the already-filtered record). -/
theorem claim_C6 :
    (∀ (src_dict : Dict) (key_set : List String) (k : String),
        (k ∉ key_set → (filter_dict src_dict key_set).lookup k = none) ∧
        ((filter_dict src_dict key_set).lookup k =
          if k ∈ key_set then src_dict.lookup k else none)) ∧
    (∀ (fields ofields : Dict),
        (filter_dict fields DATA_KEYS).lookup "owner" = some (JVal.obj ofields) →
        processItem (JVal.obj fields) =
          .ok (setKey (filter_dict fields DATA_KEYS) "owner"
            (JVal.obj (filter_dict ofields OWNER_KEYS)))) := by
  constructor
  · intro d ks k
    refine ⟨fun h => ?_, lookup_filter_dict d ks k⟩
    rw [lookup_filter_dict, if_neg h]
  · intro fields ofields h
    unfold processItem
    dsimp only
    rw [h]

/-- Witness for C6 on `sampleFields`: the extra keys go, `id` and the filtered
owner stay. -/
theorem claim_C6_witness :
    (("junk" ∉ DATA_KEYS → (filter_dict sampleFields DATA_KEYS).lookup "junk" = none) ∧
      ((filter_dict sampleFields DATA_KEYS).lookup "junk" =
        if "junk" ∈ DATA_KEYS then sampleFields.lookup "junk" else none)) ∧
    ((filter_dict sampleFields DATA_KEYS).lookup "owner" = some (JVal.obj sampleOwner)) ∧
    processItem (JVal.obj sampleFields) =
      .ok (setKey (filter_dict sampleFields DATA_KEYS) "owner"
        (JVal.obj (filter_dict sampleOwner OWNER_KEYS))) :=
  ⟨claim_C6.1 sampleFields DATA_KEYS "junk", rfl,
    claim_C6.2 sampleFields sampleOwner rfl⟩

/-- Claim C3: when the upstream record has every key of `DATA_KEYS` and its
`owner` object has every key of `OWNER_KEYS`, the filtering pass of `main`
leaves the record with exactly the keys of `DATA_KEYS` (original values, the
owner itself being the filtered owner object) and the owner with exactly the
keys of `OWNER_KEYS` (original values). -/
theorem claim_C3 (fields ofields : Dict)
    (hall : DATA_KEYS.all (fun key => ((fields.lookup key).isSome : Bool)) = true)
    (hown : fields.lookup "owner" = some (JVal.obj ofields))
    (hoall : OWNER_KEYS.all (fun key => ((ofields.lookup key).isSome : Bool)) = true) :
    ∃ f, processItem (JVal.obj fields) = .ok f ∧
      (∀ k, ((f.lookup k).isSome = true) ↔ k ∈ DATA_KEYS) ∧
      (∀ k, k ∈ DATA_KEYS → k ≠ "owner" → f.lookup k = fields.lookup k) ∧
      ∃ og, f.lookup "owner" = some (JVal.obj og) ∧
        (∀ k, ((og.lookup k).isSome = true) ↔ k ∈ OWNER_KEYS) ∧
        (∀ k, k ∈ OWNER_KEYS → og.lookup k = ofields.lookup k) := by
  have hfo : (filter_dict fields DATA_KEYS).lookup "owner" = some (JVal.obj ofields) := by
    rw [lookup_filter_dict, if_pos (show "owner" ∈ DATA_KEYS by decide)]
    exact hown
  refine ⟨setKey (filter_dict fields DATA_KEYS) "owner"
      (JVal.obj (filter_dict ofields OWNER_KEYS)), ?_, ?_, ?_, ?_⟩
  · unfold processItem
    dsimp only
    rw [hfo]
  · intro k
    by_cases hk : k = "owner"
    · subst hk
      rw [lookup_setKey_same _ _ _ _ hfo]
      simpa using (show "owner" ∈ DATA_KEYS by decide)
    · rw [lookup_setKey_ne _ _ _ _ hk, lookup_filter_dict]
      by_cases hmem : k ∈ DATA_KEYS
      · have hs := List.all_eq_true.mp hall k hmem
        simp [hmem, hs]
      · simp [hmem]
  · intro k hmem hk
    rw [lookup_setKey_ne _ _ _ _ hk, lookup_filter_dict, if_pos hmem]
  · refine ⟨filter_dict ofields OWNER_KEYS, lookup_setKey_same _ _ _ _ hfo, ?_, ?_⟩
    · intro k
      rw [lookup_filter_dict]
      by_cases hmem : k ∈ OWNER_KEYS
      · have hs := List.all_eq_true.mp hoall k hmem
        simp [hmem, hs]
      · simp [hmem]
    · intro k hmem
      rw [lookup_filter_dict, if_pos hmem]

/-- An owner sub-record with every allowed key plus one extra key. -/
def fullOwner : Dict :=
  [("login", JVal.str "a"), ("id", JVal.num 9), ("url", JVal.str "ou"),
   ("spam", JVal.null)]

/-- An upstream record carrying every allowed key plus one extra key, whose
owner is `fullOwner`. -/
def fullFields : Dict :=
  [("id", JVal.num 1), ("name", JVal.str "n"), ("description", JVal.str "d"),
   ("language", JVal.str "py"), ("created_at", JVal.str "t"),
   ("html_url", JVal.str "u"), ("watchers_count", JVal.num 2),
   ("forks_count", JVal.num 3),
   ("owner", JVal.obj fullOwner), ("extra", JVal.null)]

/-- Witness for C3 on `fullFields`. -/
theorem claim_C3_witness :
    DATA_KEYS.all (fun key => ((fullFields.lookup key).isSome : Bool)) = true ∧
    fullFields.lookup "owner" = some (JVal.obj fullOwner) ∧
    OWNER_KEYS.all (fun key => ((fullOwner.lookup key).isSome : Bool)) = true ∧
    (∃ f, processItem (JVal.obj fullFields) = .ok f ∧
      (∀ k, ((f.lookup k).isSome = true) ↔ k ∈ DATA_KEYS) ∧
      (∀ k, k ∈ DATA_KEYS → k ≠ "owner" → f.lookup k = fullFields.lookup k) ∧
      ∃ og, f.lookup "owner" = some (JVal.obj og) ∧
        (∀ k, ((og.lookup k).isSome = true) ↔ k ∈ OWNER_KEYS) ∧
        (∀ k, k ∈ OWNER_KEYS → og.lookup k = fullOwner.lookup k)) :=
  ⟨by decide, by rfl, by decide,
    claim_C3 fullFields fullOwner (by decide) (by rfl) (by decide)⟩

/-- Claim C9: against a well-formed mock, the dictionary `_retrieve_data`
returns is the page-1 response with only its `items` binding extended; every
other field (in particular `total_count`) is exactly the corresponding field
of the page-1 response, whatever the later pages report. -/
theorem claim_C9 (mock : Mock) (keyw : String) (limit page : Nat)
    (hwf : wfMock mock) (h1 : 1 ≤ limit) :
    ∃ xs extra,
      (mock keyw (if limit < 100 then limit else 100) page).lookup "items" =
        some (JVal.arr xs) ∧
      (retrieveData mock keyw limit page).1 =
        .ok (setKey (mock keyw (if limit < 100 then limit else 100) page)
          "items" (JVal.arr (xs ++ extra))) ∧
      (∀ key, key ≠ "items" →
        (setKey (mock keyw (if limit < 100 then limit else 100) page)
            "items" (JVal.arr (xs ++ extra))).lookup key =
          (mock keyw (if limit < 100 then limit else 100) page).lookup key) := by
  obtain ⟨xs, hx⟩ := hwf keyw (if limit < 100 then limit else 100) page
  by_cases h : 100 < limit
  · obtain ⟨d', ys, hd, hdy, _⟩ :=
      retrieveData_ok mock keyw hwf (limit - 100) (page + 1) (by omega)
    refine ⟨xs, ys, hx, ?_, ?_⟩
    · rw [retrieveData_eq]
      simp only [if_pos h, hx]
      rw [hd]
      simp only [hdy]
    · intro key hk
      exact lookup_setKey_ne _ _ _ _ hk
  · have hself : setKey (mock keyw (if limit < 100 then limit else 100) page)
        "items" (JVal.arr (xs ++ [])) =
        mock keyw (if limit < 100 then limit else 100) page := by
      rw [List.append_nil]
      exact setKey_lookup_self _ _ _ hx
    refine ⟨xs, [], hx, ?_, ?_⟩
    · rw [retrieveData_eq]
      simp only [if_neg h]
      rw [hself]
    · intro key hk
      exact lookup_setKey_ne _ _ _ _ hk

/-- Witness for C9 at `limit = 150`. -/
theorem claim_C9_witness :
    wfMock mockEmpty ∧ 1 ≤ 150 ∧
      (∃ xs extra,
        (mockEmpty "raft" (if 150 < 100 then 150 else 100) 1).lookup "items" =
          some (JVal.arr xs) ∧
        (retrieveData mockEmpty "raft" 150 1).1 =
          .ok (setKey (mockEmpty "raft" (if 150 < 100 then 150 else 100) 1)
            "items" (JVal.arr (xs ++ extra))) ∧
        (∀ key, key ≠ "items" →
          (setKey (mockEmpty "raft" (if 150 < 100 then 150 else 100) 1)
              "items" (JVal.arr (xs ++ extra))).lookup key =
            (mockEmpty "raft" (if 150 < 100 then 150 else 100) 1).lookup key)) :=
  ⟨fun _ _ _ => ⟨[], rfl⟩, by decide,
    claim_C9 mockEmpty "raft" 150 1 (fun _ _ _ => ⟨[], rfl⟩) (by decide)⟩

/-- Claim C5: for `limit > 100` (against a well-formed mock) `_retrieve_data`
issues its own page request and recurses on the next page with the remaining
count decremented by exactly 100; the recursive call's items are appended
after this page's items (ascending page order); and — for an arbitrary mock,
well-formed or not — the recursion issues at most `⌈limit/100⌉` requests, so
termination never depends on the upstream returning empty pages. -/
theorem claim_C5 (mock : Mock) (keyw : String) (limit page : Nat)
    (hwf : wfMock mock) (h : 100 < limit) :
    ((retrieveData mock keyw limit page).2 =
        (100, page) :: (retrieveData mock keyw (limit - 100) (page + 1)).2) ∧
    (∃ rest, (retrieveData mock keyw (limit - 100) (page + 1)).2 =
        ((if limit - 100 < 100 then limit - 100 else 100), page + 1) :: rest) ∧
    (∃ xs ys d,
        (mock keyw 100 page).lookup "items" = some (JVal.arr xs) ∧
        (retrieveData mock keyw (limit - 100) (page + 1)).1 = .ok d ∧
        d.lookup "items" = some (JVal.arr ys) ∧
        (retrieveData mock keyw limit page).1 =
          .ok (setKey (mock keyw 100 page) "items" (JVal.arr (xs ++ ys)))) ∧
    (∀ mock' : Mock, (retrieveData mock' keyw limit page).2.length ≤ (limit + 99) / 100) := by
  have hpp : (if limit < 100 then limit else 100) = 100 := by
    rw [if_neg (by omega)]
  obtain ⟨xs, hx⟩ := hwf keyw 100 page
  obtain ⟨d, ys, hd, hdy, _⟩ :=
    retrieveData_ok mock keyw hwf (limit - 100) (page + 1) (by omega)
  have hunf : retrieveData mock keyw limit page =
      (.ok (setKey (mock keyw 100 page) "items" (JVal.arr (xs ++ ys))),
        (100, page) :: (retrieveData mock keyw (limit - 100) (page + 1)).2) := by
    rw [retrieveData_eq]
    simp only [if_pos h, hpp, hx]
    rw [hd]
    simp only [hdy]
  refine ⟨?_, ?_, ⟨xs, ys, d, hx, hd, hdy, ?_⟩, ?_⟩
  · rw [hunf]
  · simpa using retrieveData_requests_head mock keyw (limit - 100) (page + 1)
  · rw [hunf]
  · intro mock'
    exact retrieveData_requests_le mock' keyw limit page (by omega)

/-- Witness for C5 at `limit = 150`, `page = 1`. -/
theorem claim_C5_witness :
    wfMock mockEmpty ∧ 100 < 150 ∧
      (((retrieveData mockEmpty "raft" 150 1).2 =
          (100, 1) :: (retrieveData mockEmpty "raft" (150 - 100) (1 + 1)).2) ∧
        (∃ rest, (retrieveData mockEmpty "raft" (150 - 100) (1 + 1)).2 =
            ((if 150 - 100 < 100 then 150 - 100 else 100), 1 + 1) :: rest) ∧
        (∃ xs ys d,
            (mockEmpty "raft" 100 1).lookup "items" = some (JVal.arr xs) ∧
            (retrieveData mockEmpty "raft" (150 - 100) (1 + 1)).1 = .ok d ∧
            d.lookup "items" = some (JVal.arr ys) ∧
            (retrieveData mockEmpty "raft" 150 1).1 =
              .ok (setKey (mockEmpty "raft" 100 1) "items" (JVal.arr (xs ++ ys)))) ∧
        (∀ mock' : Mock,
            (retrieveData mock' "raft" 150 1).2.length ≤ (150 + 99) / 100)) :=
  ⟨fun _ _ _ => ⟨[], rfl⟩, by decide,
    claim_C5 mockEmpty "raft" 150 1 (fun _ _ _ => ⟨[], rfl⟩) (by decide)⟩

/-- Claim C7: a successful run prints exactly one JSON document, serialized with
`indent=4`, whose top-level keys are exactly `keyword`, `repository_limit`,
`total_repositories`, `repo_list`, bound to the searched keyword, the
requested limit, the upstream-reported `total_count` of the merged response,
and the filtered item list. -/
theorem claim_C7 (mock : Mock) (keyword : String) (limit : Int) (d : Dict) (i : Nat)
    (h : (mainRun mock keyword limit).1 = .success d i) :
    i = 4 ∧ ∃ data items fitems tc,
      (retrieveData mock keyword limit.toNat 1).1 = .ok data ∧
      data.lookup "items" = some (JVal.arr items) ∧
      processItems items = .ok fitems ∧
      data.lookup "total_count" = some tc ∧
      d = [("keyword", JVal.str keyword),
           ("repository_limit", JVal.num limit),
           ("total_repositories", tc),
           ("repo_list", JVal.arr (fitems.map JVal.obj))] ∧
      d.map Prod.fst =
        ["keyword", "repository_limit", "total_repositories", "repo_list"] := by
  unfold mainRun at h
  by_cases hv : limit < 1 ∨ 1000 < limit
  · rw [if_pos hv] at h
    simp at h
  · rw [if_neg hv] at h
    dsimp only at h
    split at h
    · simp at h
    · split at h
      · split at h
        · simp at h
        · split at h
          · injection h with h1 h2
            subst h2
            refine ⟨rfl, _, _, _, _, by assumption, by assumption, by assumption,
              by assumption, h1.symm, ?_⟩
            rw [← h1]
            rfl
          · simp at h
      · simp at h
      · simp at h

/-- A mock for the spec's first scenario: a single upstream item with
`total_count = 42`. -/
def mockRaft : Mock := fun _ _ _ =>
  [("total_count", JVal.num 42),
   ("items", JVal.arr [JVal.obj [("id", JVal.num 7),
      ("owner", JVal.obj [("login", JVal.str "a"), ("extra", JVal.null)]),
      ("junk", JVal.null)]])]

/-- Witness for C7: the spec's scenario `keyword="raft"`, `limit=1`,
`total_count=42`. -/
theorem claim_C7_witness :
    (mainRun mockRaft "raft" 1).1 =
      .success [("keyword", JVal.str "raft"),
        ("repository_limit", JVal.num 1),
        ("total_repositories", JVal.num 42),
        ("repo_list", JVal.arr [JVal.obj [("id", JVal.num 7),
          ("owner", JVal.obj [("login", JVal.str "a")])]])] 4 ∧
    (4 = 4 ∧ ∃ data items fitems tc,
      (retrieveData mockRaft "raft" (1 : Int).toNat 1).1 = .ok data ∧
      data.lookup "items" = some (JVal.arr items) ∧
      processItems items = .ok fitems ∧
      data.lookup "total_count" = some tc ∧
      ([("keyword", JVal.str "raft"),
        ("repository_limit", JVal.num 1),
        ("total_repositories", JVal.num 42),
        ("repo_list", JVal.arr [JVal.obj [("id", JVal.num 7),
          ("owner", JVal.obj [("login", JVal.str "a")])]])] : Dict) =
        [("keyword", JVal.str "raft"),
         ("repository_limit", JVal.num (1 : Int)),
         ("total_repositories", tc),
         ("repo_list", JVal.arr (fitems.map JVal.obj))] ∧
      ([("keyword", JVal.str "raft"),
        ("repository_limit", JVal.num 1),
        ("total_repositories", JVal.num 42),
        ("repo_list", JVal.arr [JVal.obj [("id", JVal.num 7),
          ("owner", JVal.obj [("login", JVal.str "a")])]])] : Dict).map Prod.fst =
        ["keyword", "repository_limit", "total_repositories", "repo_list"]) :=
  ⟨by rfl, claim_C7 mockRaft "raft" 1 _ 4 (by rfl)⟩

/-- Two well-formed upstream repository records for the C1 failing input. -/
def c1Repos : List Dict :=
  [[("id", JVal.num 0), ("owner", JVal.obj [("login", JVal.str "a")])],
   [("id", JVal.num 1), ("owner", JVal.obj [("login", JVal.str "b")])]]

/-- Claim C1, refuted on the code: with keyword `"raft"`, `limit = 101` and the
faithfully paginated mock over the 2 repositories of `c1Repos`
(`total_count = 2`), the run succeeds but `repo_list` has length 3, not
`min(limit, total_count) = 2`: page 2 is requested with `per_page = 1`, whose
1-based slice re-serves the second repository a second time, so the merged
list exceeds the total number of available results. -/
theorem claim_C1_bug :
    ∃ repoList : List JVal,
      (mainRun (githubMock c1Repos) "raft" 101).1 = .success
        [("keyword", JVal.str "raft"), ("repository_limit", JVal.num 101),
         ("total_repositories", JVal.num 2),
         ("repo_list", JVal.arr repoList)] 4 ∧
      repoList.length = 3 ∧
      min 101 c1Repos.length = 2 ∧
      repoList.length ≠ min 101 c1Repos.length :=
  ⟨[JVal.obj [("id", JVal.num 0), ("owner", JVal.obj [("login", JVal.str "a")])],
    JVal.obj [("id", JVal.num 1), ("owner", JVal.obj [("login", JVal.str "b")])],
    JVal.obj [("id", JVal.num 1), ("owner", JVal.obj [("login", JVal.str "b")])]],
   by rfl, by rfl, by rfl, by decide⟩

/-- A mock whose page-2 response lacks `items` (all other pages are
well-formed). -/
def c10Mock : Mock := fun _ _ p =>
  if p = 2 then [("total_count", JVal.num 5)]
  else [("total_count", JVal.num 5), ("items", JVal.arr [])]

/-- Claim C10, counterexample: with `limit = 201`, the page-2 response (a
page-2-or-later response) lacking `items` does NOT contribute an empty list
with the run continuing — the run dies with an uncaught `KeyError` after the
second request, and page 3 is never fetched. -/
theorem claim_C10_counterexample :
    (mainRun c10Mock "k" 201).1 = .crash (PyErr.keyError "items") ∧
    (mainRun c10Mock "k" 201).2 = [(100, 1), (100, 2)] :=
  ⟨by rfl, by rfl⟩

/-- Claim C10, amended: the asymmetry is final-page versus non-final-page, not
page-1 versus later pages.  (i) Only the final page's fetch (remaining limit
in `(100,200]`, so the recursive call is the base case) tolerates a response
lacking `items`: it contributes the empty list and the run continues.
(ii) A response lacking `items` consumed while the remaining limit still
exceeds 100 — page 1 or any intermediate page — raises an uncaught `KeyError`
at once (no further request).  (iii) For `limit ≤ 100`, a page-1 response
lacking `items` crashes `main`.  (iv) A record lacking `owner` crashes the
filtering pass. -/
theorem claim_C10_amended :
    (∀ (mock : Mock) (keyw : String) (limit page : Nat) (xs : List JVal),
        100 < limit → limit ≤ 200 →
        (mock keyw 100 page).lookup "items" = some (JVal.arr xs) →
        (mock keyw (if limit - 100 < 100 then limit - 100 else 100)
            (page + 1)).lookup "items" = none →
        retrieveData mock keyw limit page =
          (.ok (setKey (mock keyw 100 page) "items" (JVal.arr (xs ++ []))),
           [(100, page),
            ((if limit - 100 < 100 then limit - 100 else 100), page + 1)])) ∧
    (∀ (mock : Mock) (keyw : String) (limit page : Nat),
        100 < limit →
        (mock keyw 100 page).lookup "items" = none →
        retrieveData mock keyw limit page =
          (.error (PyErr.keyError "items"), [(100, page)])) ∧
    (∀ (mock : Mock) (keyw : String) (limit : Int),
        1 ≤ limit → limit ≤ 100 →
        (mock keyw limit.toNat 1).lookup "items" = none →
        (mainRun mock keyw limit).1 = .crash (PyErr.keyError "items")) ∧
    (∀ fields : Dict,
        fields.lookup "owner" = none →
        processItem (JVal.obj fields) = .error (PyErr.keyError "owner")) := by
  have hbase : ∀ (mock : Mock) (keyw : String) (limit page : Nat), limit ≤ 100 →
      retrieveData mock keyw limit page =
        (.ok (mock keyw (if limit < 100 then limit else 100) page),
         [((if limit < 100 then limit else 100), page)]) := by
    intro mock keyw limit page hle
    rw [retrieveData_eq]
    simp only [if_neg (by omega : ¬ 100 < limit)]
  refine ⟨?_, ?_, ?_, ?_⟩
  · intro mock keyw limit page xs h1 h2 hx hnone
    have hpp : (if limit < 100 then limit else 100) = 100 := by
      rw [if_neg (by omega)]
    rw [retrieveData_eq]
    simp only [if_pos h1, hpp, hx]
    rw [hbase mock keyw (limit - 100) (page + 1) (by omega)]
    simp only [hnone]
  · intro mock keyw limit page h1 hnone
    have hpp : (if limit < 100 then limit else 100) = 100 := by
      rw [if_neg (by omega)]
    rw [retrieveData_eq]
    simp only [if_pos h1, hpp, hnone]
  · intro mock keyw limit h1 h2 hnone
    have hpp : (if limit.toNat < 100 then limit.toNat else 100) = limit.toNat := by
      split <;> omega
    unfold mainRun
    rw [if_neg (by omega)]
    dsimp only
    rw [hbase mock keyw limit.toNat 1 (by omega), hpp]
    dsimp only
    rw [hnone]
  · intro fields hnone
    unfold processItem
    dsimp only
    rw [lookup_filter_dict, if_pos (show "owner" ∈ DATA_KEYS by decide), hnone]

/-- A mock whose page 1 is well-formed and whose later pages lack `items`. -/
def c10bMock : Mock := fun _ _ p =>
  if p = 1 then [("total_count", JVal.num 5), ("items", JVal.arr [JVal.num 1])]
  else [("total_count", JVal.num 5)]

/-- A mock none of whose responses carry `items`. -/
def noItemsMock : Mock := fun _ _ _ => [("total_count", JVal.num 5)]

/-- Witness for the amended C10 at concrete inputs: (i) `limit = 150`, final
page 2 lacking `items` is tolerated; (ii) `limit = 101` at page 2 (the
intermediate call of a `limit = 201` run) crashes at once; (iii) `limit = 50`
with no `items` on page 1 crashes `main`; (iv) a record without `owner`
crashes the filtering pass. -/
theorem claim_C10_amended_witness :
    ((c10bMock "k" 100 1).lookup "items" = some (JVal.arr [JVal.num 1]) ∧
      (c10bMock "k" (if 150 - 100 < 100 then 150 - 100 else 100) (1 + 1)).lookup
          "items" = none ∧
      retrieveData c10bMock "k" 150 1 =
        (.ok (setKey (c10bMock "k" 100 1) "items" (JVal.arr ([JVal.num 1] ++ []))),
         [(100, 1), ((if 150 - 100 < 100 then 150 - 100 else 100), 1 + 1)])) ∧
    ((c10Mock "k" 100 2).lookup "items" = none ∧
      retrieveData c10Mock "k" 101 2 =
        (.error (PyErr.keyError "items"), [(100, 2)])) ∧
    ((noItemsMock "k" (50 : Int).toNat 1).lookup "items" = none ∧
      (mainRun noItemsMock "k" 50).1 = .crash (PyErr.keyError "items")) ∧
    (([] : Dict).lookup "owner" = none ∧
      processItem (JVal.obj []) = .error (PyErr.keyError "owner")) :=
  ⟨⟨by rfl, by rfl,
      claim_C10_amended.1 c10bMock "k" 150 1 [JVal.num 1] (by decide) (by decide)
        (by rfl) (by rfl)⟩,
    ⟨by rfl, claim_C10_amended.2.1 c10Mock "k" 101 2 (by decide) (by rfl)⟩,
    ⟨by rfl, claim_C10_amended.2.2.1 noItemsMock "k" 50 (by decide) (by decide)
        (by rfl)⟩,
    ⟨by rfl, claim_C10_amended.2.2.2 [] (by rfl)⟩⟩
